import Mathlib

/-!
Verification of the core collection-and-normalization pipeline of the
Nutanix Prometheus exporter (`src/nutanix_prometheus_exporter.py`).

The Python source is shallowly embedded: each definition below names the
function (or the inline block of `NutanixMetrics.fetch` / `__init__`) it
translates, and network calls are abstracted as explicit inputs (an
attempt function for `process_request`, a per-page fetch function for
`v4_get_all_entities`, the decoded statistics payload for
`v4_get_entity_stats`).  Completion order of concurrent tasks
(`as_completed`) is modelled as an explicit order argument, quantified
over permutations of the submission order where a claim needs it.
-/

namespace NutanixExporter

/-! ## Metric key and label sanitization

The source sanitizes metric keys and label values with
`x.replace(".","_")` followed by `x.replace("-","_")`
(e.g. `nutanix_prometheus_exporter.py` lines 181-182, 3002-3003, 819-820).
Python `str.replace` with single-character arguments is exactly a
character-by-character map, which is how it is embedded here. -/

/-- One character of the sanitization: `.` and `-` become `_`, everything
else is untouched. -/
def sanitizeChar (c : Char) : Char :=
  if c = '.' ∨ c = '-' then '_' else c

/-- Embeds `x.replace(".","_").replace("-","_")` (single-character
replacement applied to every position of the string). -/
def sanitize (s : String) : String :=
  String.mk (s.data.map sanitizeChar)

/-! ## Resilient request executor: `process_request` (lines 2256-2396)

One HTTP attempt is abstracted as an `Attempt` value: the exception the
`requests` call raised, or the `Response` it returned (status code,
reason, body text).  The retry loop `while retries > 0` (lines 2281-2370)
and the post-loop status classification (lines 2372-2396) are translated
directly.  A raised Python exception is modelled as `ReqResult.raised`
carrying the whitespace-separated parts of the exception message, so
"the message carries X" is membership of `X` in the parts. -/

/-- Outcome of one `requests.get/post/...` call inside the retry loop of
`process_request`: a raised exception (connection error, timeout,
HTTP error, other request exception) or a returned response. -/
inductive Attempt where
  | conn (errName errStr : String)
  | timeout (errName errStr : String)
  | httpExc (status : Nat) (reason text : String)
  | reqExc
  | resp (status : Nat) (reason text : String)
deriving DecidableEq

/-- The retryable outcomes: `requests.exceptions.ConnectionError` and
`requests.exceptions.Timeout` (lines 2344-2365); everything else is not
retried. -/
def Attempt.transient : Attempt → Bool
  | .conn _ _ => true
  | .timeout _ _ => true
  | _ => false

/-- The `str(error_code)` of a transient exception, interpolated into the
final error message at lines 2346 and 2357. -/
def Attempt.causeStr : Attempt → String
  | .conn _ es => es
  | .timeout _ es => es
  | _ => ""

/-- What `process_request` does: return the response, or raise an
exception whose message has the given whitespace-separated parts. -/
inductive ReqResult where
  | ok (status : Nat) (reason text : String)
  | raised (parts : List String)
deriving DecidableEq

/-- `response.ok` of the `requests` library: the status code is below
400. -/
def responseOk (status : Nat) : Bool := status < 400

/-- The post-loop classification of the received response
(lines 2372-2396).  `response.ok` returns it; 401 raises
`f"{url} {status_code} {reason}"` (line 2376); 500 raises
`f"{url} {status_code} {reason} {text}"` (line 2380); any other non-ok
status reaches the diagnostic print of `response.raise_for_status()`
(line 2386), which itself raises `requests` HTTPError
`"{status} Client/Server Error: {reason} for url: {url}"` before the
`error_message` of line 2395 can be raised; a status outside 400-599
(never produced by HTTP) would fall through to line 2396. -/
def classify_response (url : String) (status : Nat) (reason text : String) : ReqResult :=
  if responseOk status then .ok status reason text
  else if status = 401 then .raised [url, toString status, reason]
  else if status = 500 then .raised [url, toString status, reason, text]
  else if status < 500 then .raised [toString status, "Client Error:", reason, "for url:", url]
  else if status < 600 then .raised [toString status, "Server Error:", reason, "for url:", url]
  else .raised [url, toString status, reason, text]

/-- Result of a `process_request` call, with the observable effort: how
many HTTP attempts were made and how many inter-retry sleeps of
`api_sleep_seconds_between_retries` were performed. -/
structure PRResult where
  result : ReqResult
  attempts : Nat
  sleeps : Nat
deriving DecidableEq

/-- The retry loop of `process_request` (lines 2281-2370).  `attempt i`
is the outcome of the i-th HTTP call.  On `ConnectionError` or `Timeout`
with `retries == 1` the loop raises
`f"ConnectionError/Timeout {url} {type} {str}"` (lines 2345-2348,
2356-2359); otherwise it sleeps, decrements `retries` and continues
(lines 2349-2354, 2360-2365).  `HTTPError` raises
`f"HTTPError {url} {status} {reason} {text}"` (line 2342); any other
`RequestException` raises with the url (line 2368).  A returned response
breaks out of the loop into `classify_response`.  `retries = 0` never
enters the loop and line 2372 hits an unbound `response` (NameError). -/
def process_request_go (attempt : Nat → Attempt) (url : String) :
    Nat → Nat → Nat → PRResult
  | 0, idx, slp => ⟨.raised ["NameError:", "name", "response", "is", "not", "defined"], idx, slp⟩
  | retries + 1, idx, slp =>
    match attempt idx with
    | .conn en es =>
      if retries = 0 then ⟨.raised ["ConnectionError", url, en, es], idx + 1, slp⟩
      else process_request_go attempt url retries (idx + 1) (slp + 1)
    | .timeout en es =>
      if retries = 0 then ⟨.raised ["Timeout", url, en, es], idx + 1, slp⟩
      else process_request_go attempt url retries (idx + 1) (slp + 1)
    | .httpExc s reason text =>
      ⟨.raised ["HTTPError", url, toString s, reason, text], idx + 1, slp⟩
    | .reqExc => ⟨.raised [url], idx + 1, slp⟩
    | .resp s reason text => ⟨classify_response url s reason text, idx + 1, slp⟩

/-- `process_request(url, method, ..., api_requests_retries, ...)`:
run the retry loop starting with the configured retry budget. -/
def process_request (attempt : Nat → Attempt) (url : String)
    (api_requests_retries : Nat) : PRResult :=
  process_request_go attempt url api_requests_retries 0 0

/-! ## Paginated entity fetcher: `v4_get_all_entities` (lines 2895-2937)

The count probe `list_function(_page=0,_limit=1)` is abstracted: its
`response.metadata.total_available_results` is the `total` argument.
`page_fetch p` is the outcome of the page-`p` task submitted at
lines 2918-2926 (`none` = the task raised).  `completion_order` is the
order in which `as_completed` yields the futures; the claims are proved
for every permutation of the submitted page indices
`range(0, page_count)`. -/

/-- Observable outcome of one `v4_get_all_entities` call: the
accumulated `entity_list`, how many page tasks were submitted to the
pool, how many "Task failed" warnings were printed (line 2932), and
whether the "No entities found" warning was printed (line 2936). -/
structure FetchAllResult (E : Type) where
  entity_list : List E
  tasks_submitted : Nat
  failed_tasks : Nat
  no_entities_warning : Bool
deriving DecidableEq

/-- `page_count = math.ceil(total_available_results/limit)`
(line 2914), as ceiling division on naturals. -/
def page_count (total limit : Nat) : Nat := total ⌈/⌉ limit

/-- `v4_get_all_entities` (lines 2910-2937): if the probed total is
truthy, submit one task per page index in `range(0, page_count)` and,
in completion order, extend the entity list with each successful page's
`.data` and print one warning per failed task; otherwise print the
"No entities found" warning.  Either way the accumulated list is
returned (the call itself never raises on task failure). -/
def v4_get_all_entities {E : Type} (total limit : Nat)
    (page_fetch : Nat → Option (List E)) (completion_order : List Nat) :
    FetchAllResult E :=
  if total ≠ 0 then
    let pc := page_count total limit
    if 0 < pc then
      let r := completion_order.foldl (fun acc p =>
        match page_fetch p with
        | some entities => (acc.1 ++ entities, acc.2)
        | none => (acc.1, acc.2 + 1)) ([], 0)
      ⟨r.1, pc, r.2, false⟩
    else ⟨[], 0, 0, false⟩
  else ⟨[], 0, 0, true⟩

/-! ## Concurrent fan-out coordinator (`NutanixMetrics.fetch`)

Lines 569-589 (and the analogous blocks for hosts, storage containers,
disks, ...): one `v4_get_entity_stats` task per entity descriptor; as
each future completes, `metrics.extend(entities)` on success and a
single "Task failed" warning on exception.  `results` is the list of
task outcomes in completion order (`Except.error` = the task raised). -/

/-- The `for future in as_completed(futures)` accumulation loop of the
fan-out coordinator (lines 582-589): returns the accumulated metric
triples and the number of "Task failed" warnings printed. -/
def fanout_collect {T : Type} (results : List (Except String (List T))) :
    List T × Nat :=
  results.foldl (fun acc r =>
    match r with
    | .ok triples => (acc.1 ++ triples, acc.2)
    | .error _ => (acc.1, acc.2 + 1)) ([], 0)

/-! ## Per-entity stat sampler: `v4_get_entity_stats` (lines 2940-3012)

The mapping-shaped branch (the `else` of line 2990, taken whenever
`metric_key_prefix != 'nutanix_vmm_ahv_stats_vm_'`): the decoded
`response.data.to_dict()` is a mapping from stat field name to either
`None` or a list of records, iterated in insertion order.  A record is
abstracted as a `StatRecord`: `value` is `str(record['value'])`
(used at line 3007) and `raw` is `str(record)` itself (used at
line 3005 for the `nutanix_networking_vpc_ns_stats_` payloads, whose
lists hold plain values rather than `{value: ...}` mappings). -/

/-- One element of a stat field's record list. -/
structure StatRecord where
  value : String
  raw : String
deriving DecidableEq

/-- The fixed exclusion list of bookkeeping fields (line 2973). -/
def exclude_list : List String :=
  ["timestamp", "_reserved", "_object_type", "_unknown_fields", "ext_id", "links",
   "container_ext_id", "tenant_id", "stat_type", "cluster", "hypervisor_type",
   "volume_group_ext_id", "volume_disk_ext_id"]

/-- The recognized load-balancer composite-field set (line 2974),
explicitly skipped at lines 2995-2997. -/
def lb_stats : List String := ["listener_stats", "target_stats"]

/-- `key_string = f"{metric_key_prefix}{metric}"` followed by the two
sanitizing replaces (lines 3001-3003). -/
def mkKey (pfx metric : String) : String := sanitize (pfx ++ metric)

/-- `metric_to_return = f"{key_string}:{entity_name}:{value}"`
(lines 3005 and 3007): the string-encoded metric triple. -/
def mkTriple (key entity value : String) : String :=
  key ++ ":" ++ entity ++ ":" ++ value

/-- The mapping-shaped branch of `v4_get_entity_stats`
(lines 2990-3012): iterate the payload's fields in order; skip fields
of `exclude_list`, of `lb_stats`, and fields whose value is `None`;
otherwise take the first record of the field's list
(`metric_data[0]`, which on an empty list raises IndexError, modelled
as `Except.error` discarding the whole call) and append the encoded
triple. -/
def v4_get_entity_stats_map (pfx entity_name : String) :
    List (String × Option (List StatRecord)) → Except String (List String)
  | [] => .ok []
  | (metric, metric_data) :: rest =>
    if metric ∈ exclude_list then v4_get_entity_stats_map pfx entity_name rest
    else if metric ∈ lb_stats then v4_get_entity_stats_map pfx entity_name rest
    else
      match metric_data with
      | none => v4_get_entity_stats_map pfx entity_name rest
      | some [] => .error "IndexError: list index out of range"
      | some (r :: _) =>
        match v4_get_entity_stats_map pfx entity_name rest with
        | .ok triples =>
          .ok (mkTriple (mkKey pfx metric) entity_name
                (if pfx = "nutanix_networking_vpc_ns_stats_" then r.raw else r.value)
              :: triples)
        | .error e => .error e

/-- Refinement-side restatement (from the spec's words, for comparison
with `v4_get_entity_stats_map`): what one field contributes — nothing if
excluded, a load-balancer composite, or `None`; otherwise one triple
whose value comes from the first record. -/
def emit_one (pfx entity_name : String)
    (field : String × Option (List StatRecord)) : Option String :=
  if field.1 ∈ exclude_list ∨ field.1 ∈ lb_stats then none
  else
    match field.2 with
    | none => none
    | some [] => none
    | some (r :: _) =>
      some (mkTriple (mkKey pfx field.1) entity_name
        (if pfx = "nutanix_networking_vpc_ns_stats_" then r.raw else r.value))

/-! ## The string-encoded triple and its decoding

`v4_get_entity_stats` encodes each triple as
`f"{key_string}:{entity_name}:{value}"`; the publishing loops decode
with `key, entity, value = metric.split(':')` (e.g. lines 590-594),
which raises ValueError unless the split yields exactly three parts.
Encoding and `str.split(':')` are modelled on character lists. -/

/-- Python `s.split(':')`: split at every colon, keeping empty parts. -/
def splitOnColon : List Char → List (List Char)
  | [] => [[]]
  | c :: rest =>
    match splitOnColon rest with
    | [] => [[]]
    | part :: parts =>
      if c = ':' then [] :: part :: parts
      else (c :: part) :: parts

/-- The character-level content of `f"{key}:{entity}:{value}"`. -/
def encode_triple (key entity value : List Char) : List Char :=
  key ++ ':' :: entity ++ ':' :: value

/-- `key, entity, value = metric.split(':')` (line 592): succeeds only
when the split has exactly three parts, otherwise raises ValueError. -/
def decode_triple (s : List Char) :
    Except String (List Char × List Char × List Char) :=
  match splitOnColon s with
  | [k, e, v] => .ok (k, e, v)
  | _ => .error "ValueError: unpack"

/-! ## Cross-reference aggregation: per-cluster VM counts
(`NutanixMetrics.fetch`, lines 602-634)

Only the fields the join reads are modelled: a cluster's `ext_id`,
`name` and `config.cluster_function`; a VM's `cluster.ext_id` and
`power_state`. -/

/-- The cluster fields read by the aggregation loop. -/
structure ClusterEntity where
  ext_id : String
  name : String
  cluster_function : List String
deriving DecidableEq

/-- The VM fields read by the aggregation loop. -/
structure VmEntity where
  cluster_ext_id : String
  power_state : String
deriving DecidableEq

/-- The per-cluster `nutanix_count_vm_on` writes (lines 610-614): for
every fetched cluster whose `cluster_function` does not contain
`PRISM_CENTRAL`, one gauge write labelled with the cluster's name whose
value is the number of fetched VMs referencing that cluster and powered
on. -/
def published_vm_on_counts (cluster_list : List ClusterEntity)
    (vms_list : List VmEntity) : List (String × Nat) :=
  (cluster_list.filter (fun c => !(c.cluster_function.contains "PRISM_CENTRAL"))).map
    (fun c =>
      (c.name,
        ((vms_list.filter (fun vm => vm.cluster_ext_id == c.ext_id)).filter
          (fun vm => vm.power_state == "ON")).length))

/-! ## Metric registry: the clustermgmt gauges
(`NutanixMetrics.__init__` lines 163-189 and the publish paths of
`NutanixMetrics.fetch`)

The SDK stats classes (`HostStats`, `ClusterStats`,
`StorageContainerStats`, `DiskStats`) live outside this repository;
their introspected field lists (`vars(stats)` at line 175) are the
`...Fields` arguments, per the spec's external-interface contract
("a fixed, versioned set of field names per entity kind").  Likewise
the set of fields a poll cycle actually publishes for an entity kind
(payload-dependent) is the `...Emitted` arguments. -/

/-- The per-kind enable flags that gate the clustermgmt regions. -/
structure MetricFlags where
  cluster_metrics : Bool
  hosts_metrics : Bool
  storage_containers_metrics : Bool
  disks_metrics : Bool
deriving DecidableEq

/-- `key_string = f"nutanix_clustermgmt_{class_snake_case_name}_{stat}"`
with the two sanitizing replaces (lines 180-182). -/
def clustermgmt_stat_key (clsSnake stat : String) : String :=
  sanitize ("nutanix_clustermgmt_" ++ clsSnake ++ "_" ++ stat)

/-- The clustermgmt stat gauge keys registered by `__init__`
(lines 163-189): under `cluster_metrics`, the classes `HostStats` and
`ClusterStats` are always processed, `StorageContainerStats` only when
`storage_containers_metrics` is also set, `DiskStats` only when
`disks_metrics` is also set (lines 166-171). -/
def registered_clustermgmt_stat_keys (flags : MetricFlags)
    (hostStatsFields clusterStatsFields storageContainerStatsFields diskStatsFields :
      List String) : List String :=
  if flags.cluster_metrics then
    hostStatsFields.map (clustermgmt_stat_key "host_stats") ++
    clusterStatsFields.map (clustermgmt_stat_key "cluster_stats") ++
    (if flags.storage_containers_metrics then
      storageContainerStatsFields.map (clustermgmt_stat_key "storage_container_stats")
    else []) ++
    (if flags.disks_metrics then
      diskStatsFields.map (clustermgmt_stat_key "disk_stats")
    else [])
  else []

/-- The clustermgmt stat gauge keys a poll cycle of
`NutanixMetrics.fetch` writes: cluster stats under `cluster_metrics`
(lines 553-594, `metric_key_prefix='nutanix_clustermgmt_cluster_stats_'`),
host stats under `hosts_metrics` (lines 684-727), storage container
stats under `storage_containers_metrics` (lines 776-822), disk stats
under `disks_metrics` (lines 826-867); each written key is the
sanitized concatenation produced by `v4_get_entity_stats` for a field
the payload actually emitted. -/
def written_clustermgmt_stat_keys (flags : MetricFlags)
    (clusterEmitted hostEmitted storageContainerEmitted diskEmitted : List String) :
    List String :=
  (if flags.cluster_metrics then
    clusterEmitted.map (fun s => sanitize ("nutanix_clustermgmt_cluster_stats_" ++ s))
  else []) ++
  (if flags.hosts_metrics then
    hostEmitted.map (fun s => sanitize ("nutanix_clustermgmt_host_stats_" ++ s))
  else []) ++
  (if flags.storage_containers_metrics then
    storageContainerEmitted.map
      (fun s => sanitize ("nutanix_clustermgmt_storage_container_stats_" ++ s))
  else []) ++
  (if flags.disks_metrics then
    diskEmitted.map (fun s => sanitize ("nutanix_clustermgmt_disk_stats_" ++ s))
  else [])

/-! ## Storage container label composition
(`NutanixMetrics.fetch`, lines 813-821)

For each decoded storage-container triple, the publishing loop looks up
`next(iter([sc['parent_name'] for sc in storage_container_details_list
if sc['entity_name'] == entity]))` — the parent name of the FIRST
details entry whose `entity_name` equals the triple's entity — and sets
the gauge label to the sanitized `f"{parent}_{entity}"`. -/

/-- One entry of `storage_container_details_list` (lines 784-790). -/
structure SCDetail where
  entity_name : String
  parent_name : String
deriving DecidableEq

/-- The `next(iter([...]))` lookup of line 817: the parent name of the
first matching details entry (`none` models the StopIteration raised on
an empty match). -/
def storage_container_cluster (details : List SCDetail) (entity : String) :
    Option String :=
  ((details.filter (fun d => d.entity_name == entity)).map
    (fun d => d.parent_name)).head?

/-- The published `storage_container` label of a triple whose decoded
entity name is `entity` (lines 817-821): the sanitized
`f"{looked-up parent}_{entity}"`. -/
def storage_container_label (details : List SCDetail) (entity : String) :
    Option String :=
  (storage_container_cluster details entity).map
    (fun parent => sanitize (parent ++ "_" ++ entity))

/-! ## Concrete inputs used by the witness and counterexample theorems -/

/-- Concrete page fetch for the C1 witness: page 0 yields 100
entities, page 1 yields 50 (total 150, limit 100). -/
def c1_example_fetch : Nat → Option (List Nat) :=
  fun p => if p = 0 then some (List.replicate 100 0) else some (List.replicate 50 1)

/-- Concrete batch for the C4 witness: 5 tasks, 1 raises. -/
def c4_example_results : List (Except String (List String)) :=
  [.ok ["k1:e1:1"], .ok ["k2:e2:2", "k3:e2:3"], .error "Task failed",
   .ok [], .ok ["k4:e4:4"]]

/-- Concrete payload for the C5 witness: one excluded field, one
load-balancer composite, one None-valued field, one real stat. -/
def c5_example_payload : List (String × Option (List StatRecord)) :=
  [("timestamp", some [⟨"9", "raw9"⟩]),
   ("listener_stats", some [⟨"1", "raw1"⟩]),
   ("memory_usage_ppm", none),
   ("controller_num_iops", some [⟨"123", "raw123"⟩, ⟨"456", "raw456"⟩])]

/-- Failing input for C8: two storage containers named `default`, one
on `clusterA` (listed first) and one on `clusterB`. -/
def c8_example_details : List SCDetail :=
  [⟨"default", "clusterA"⟩, ⟨"default", "clusterB"⟩]

/-- Concrete instance of C2: every attempt times out. -/
def c2_example_attempt : Nat → Attempt :=
  fun _ => .timeout "ReadTimeout" "HTTPSConnectionPool read timed out"

/-- Concrete response for the C3 witness. -/
def c3_example_attempt : Nat → Attempt := fun _ => .resp 404 "NOT FOUND" "no such route"

/-! ## Helper lemmas -/

/-- Sanitizing a character twice is the same as sanitizing it once. -/
lemma sanitizeChar_idem (c : Char) : sanitizeChar (sanitizeChar c) = sanitizeChar c := by
  by_cases h : c = '.' ∨ c = '-' <;> simp [sanitizeChar, h]

/-- A retryable attempt is a connection error or a timeout. -/
lemma transient_shape (a : Attempt) (h : a.transient = true) :
    (∃ en es, a = .conn en es) ∨ (∃ en es, a = .timeout en es) := by
  cases a <;> simp [Attempt.transient] at h ⊢

/-- With a positive retry budget, a first attempt that is not a
connection error or timeout ends `process_request` after exactly one
attempt and no sleep. -/
lemma process_request_attempts_one (a : Nat → Attempt) (u : String) (r : Nat)
    (hr : 0 < r) (h : (a 0).transient = false) :
    (process_request a u r).attempts = 1 ∧ (process_request a u r).sleeps = 0 := by
  obtain ⟨k, rfl⟩ : ∃ k, r = k + 1 := ⟨r - 1, by omega⟩
  cases ha : a 0 <;>
    simp [Attempt.transient, ha] at h <;>
    simp [process_request, process_request_go, ha]

/-- Closed form of the page-accumulation loop (lines 2927-2934): the
entities of the successful pages in completion order, and one warning
per failed page. -/
lemma fetch_foldl {E : Type} (page_fetch : Nat → Option (List E)) :
    ∀ (order : List Nat) (acc : List E × Nat),
      order.foldl (fun acc p =>
        match page_fetch p with
        | some entities => (acc.1 ++ entities, acc.2)
        | none => (acc.1, acc.2 + 1)) acc =
      (acc.1 ++ (order.filterMap page_fetch).flatten,
        acc.2 + (order.filter (fun p => (page_fetch p).isNone)).length) := by
  intro order
  induction order with
  | nil => intro acc; simp
  | cons p rest ih =>
    intro acc
    rw [List.foldl_cons]
    cases hp : page_fetch p <;> simp [hp, ih, List.append_assoc] <;> omega

/-- Closed form of the fan-out accumulation loop (lines 582-589). -/
lemma fanout_foldl {T : Type} :
    ∀ (results : List (Except String (List T))) (acc : List T × Nat),
      results.foldl (fun acc r =>
        match r with
        | .ok triples => (acc.1 ++ triples, acc.2)
        | .error _ => (acc.1, acc.2 + 1)) acc =
      (acc.1 ++ (results.filterMap Except.toOption).flatten,
        acc.2 + results.countP (fun r => r.toOption.isNone)) := by
  intro results
  induction results with
  | nil => intro acc; simp
  | cons r rest ih =>
    intro acc
    rw [List.foldl_cons]
    cases r <;> simp [ih, Except.toOption, List.append_assoc, List.countP_cons] <;> omega

/-- The successful tasks plus the failed tasks are all the tasks. -/
lemma filterMap_toOption_length_add {T : Type} :
    ∀ results : List (Except String (List T)),
      (results.filterMap Except.toOption).length +
        results.countP (fun r => r.toOption.isNone) = results.length := by
  intro results
  induction results with
  | nil => simp
  | cons r rest ih =>
    rw [List.countP_cons]
    cases r with
    | ok a =>
      have h1 : (Except.ok a : Except String (List T)).toOption = some a := rfl
      rw [List.filterMap_cons_some h1]
      simp only [h1, Option.isNone_some, Bool.false_eq_true, if_false, List.length_cons]
      omega
    | error e =>
      have h1 : (Except.error e : Except String (List T)).toOption = none := rfl
      rw [List.filterMap_cons_none h1]
      simp only [h1, Option.isNone_none, if_true, List.length_cons]
      omega

/-! ## C1: pagination completeness -/

/-- C1. With a positive page size and the probed total `T` from the
page-0/limit-1 call: if `T = 0` the fetcher submits no page task,
prints the "No entities found" warning and returns the empty list;
otherwise it submits exactly `ceil(T/limit)` page tasks (one per page
index) and returns, without raising, the concatenation in completion
order of the entities of every page whose fetch succeeded — a
permutation of the successful pages' data in page order — with one
logged warning per failed page. -/
theorem c1_pagination_completeness {E : Type} (total limit : Nat)
    (page_fetch : Nat → Option (List E)) (order : List Nat)
    (hlimit : 0 < limit)
    (horder : order.Perm (List.range (page_count total limit))) :
    (total = 0 →
      v4_get_all_entities total limit page_fetch order =
        ⟨[], 0, 0, true⟩) ∧
    (0 < total →
      (v4_get_all_entities total limit page_fetch order).tasks_submitted =
        page_count total limit ∧
      0 < page_count total limit ∧
      (v4_get_all_entities total limit page_fetch order).no_entities_warning = false ∧
      (v4_get_all_entities total limit page_fetch order).entity_list =
        (order.filterMap page_fetch).flatten ∧
      (v4_get_all_entities total limit page_fetch order).entity_list.Perm
        ((List.range (page_count total limit)).filterMap page_fetch).flatten ∧
      (v4_get_all_entities total limit page_fetch order).failed_tasks =
        (order.filter (fun p => (page_fetch p).isNone)).length) := by
  constructor
  · intro h0
    subst h0
    simp [v4_get_all_entities]
  · intro hpos
    have hne : total ≠ 0 := by omega
    have hpc : 0 < page_count total limit := by
      rw [page_count, Nat.ceilDiv_eq_add_pred_div]
      exact Nat.div_pos (by omega) hlimit
    have hval : v4_get_all_entities total limit page_fetch order =
        ⟨(order.filterMap page_fetch).flatten, page_count total limit,
          (order.filter (fun p => (page_fetch p).isNone)).length, false⟩ := by
      rw [v4_get_all_entities, if_pos hne]
      simp only [if_pos hpc, fetch_foldl]
      simp
    rw [hval]
    exact ⟨rfl, hpc, rfl, rfl,
      List.Perm.flatten (List.Perm.filterMap _ horder), rfl⟩

set_option maxRecDepth 4000 in
/-- Witness for C1: `T=150`, `limit=100` yields exactly 2 page tasks
and 150 entities when both pages succeed; `T=0` yields no task, an
empty result and the warning. -/
theorem c1_pagination_completeness_witness :
    (v4_get_all_entities 150 100 c1_example_fetch [1, 0]).tasks_submitted = 2 ∧
    (v4_get_all_entities 150 100 c1_example_fetch [1, 0]).entity_list.length = 150 ∧
    (v4_get_all_entities 0 100 c1_example_fetch []).entity_list = [] ∧
    (v4_get_all_entities 0 100 c1_example_fetch []).no_entities_warning = true := by
  have h := c1_pagination_completeness 150 100 c1_example_fetch [1, 0]
    (by decide) (by decide)
  have h0 := c1_pagination_completeness 0 100 c1_example_fetch []
    (by decide) (by decide)
  refine ⟨((h.2 (by decide)).1).trans (by decide), ?_, by rw [h0.1 rfl], by rw [h0.1 rfl]⟩
  rw [(h.2 (by decide)).2.2.2.1]
  decide

/-! ## C4: partial-failure isolation in the fan-out coordinator -/

/-- C4. For a batch of `N` stat-sampling tasks of which `k` raise and
`N - k` succeed, the coordinator loop logs exactly `k` failures,
returns exactly the concatenation of the successful tasks' triples
(and nothing else), and the successful tasks number `N - k`; the loop
itself never raises (it is a total function of the task outcomes). -/
theorem c4_partial_failure_isolation {T : Type}
    (results : List (Except String (List T))) (N k : Nat)
    (hN : results.length = N)
    (hk : results.countP (fun r => r.toOption.isNone) = k) :
    (fanout_collect results).2 = k ∧
    (fanout_collect results).1 = (results.filterMap Except.toOption).flatten ∧
    (results.filterMap Except.toOption).length = N - k := by
  have hfold := fanout_foldl results ([], 0)
  have hlen := filterMap_toOption_length_add results
  rw [fanout_collect, hfold]
  exact ⟨by simpa using hk, by simp, by omega⟩

/-- Witness for C4: with `N = 5` and `k = 1` the coordinator returns
the 4 successful tasks' triples and logs exactly 1 failure. -/
theorem c4_partial_failure_isolation_witness :
    (fanout_collect c4_example_results).2 = 1 ∧
    (fanout_collect c4_example_results).1 =
      (c4_example_results.filterMap Except.toOption).flatten ∧
    (c4_example_results.filterMap Except.toOption).length = 5 - 1 :=
  c4_partial_failure_isolation c4_example_results 5 1 (by decide) (by decide)

/-! ## C9: sanitization -/

/-- C9. The sanitization replaces every `.` and `-` with `_`
(`sanitize "a.b-c" = "a_b_c"`), is idempotent, and every metric key
emitted by the mapping-shaped stat sampler is the sanitization of the
metric key prefix concatenated with the stat field name. -/
theorem c9_sanitize_idempotent_key_form :
    sanitize "a.b-c" = "a_b_c" ∧
    (∀ s, sanitize (sanitize s) = sanitize s) ∧
    (∀ pfx entity payload triples,
      v4_get_entity_stats_map pfx entity payload = Except.ok triples →
      ∀ t ∈ triples, ∃ metric d v, (metric, d) ∈ payload ∧
        t = mkTriple (sanitize (pfx ++ metric)) entity v) := by
  refine ⟨by decide, ?_, ?_⟩
  · intro s
    show String.mk ((s.data.map sanitizeChar).map sanitizeChar) =
      String.mk (s.data.map sanitizeChar)
    rw [List.map_map]
    exact congrArg _ (List.map_congr_left fun c _ => sanitizeChar_idem c)
  · intro pfx entity payload
    induction payload with
    | nil =>
      intro triples h t ht
      simp [v4_get_entity_stats_map] at h
      subst h
      simp at ht
    | cons hd tl ih =>
      intro triples h t ht
      obtain ⟨metric, d⟩ := hd
      simp only [v4_get_entity_stats_map] at h
      by_cases hex : metric ∈ exclude_list
      · rw [if_pos hex] at h
        obtain ⟨m, d0, v, hm, hv⟩ := ih triples h t ht
        exact ⟨m, d0, v, List.mem_cons_of_mem _ hm, hv⟩
      · rw [if_neg hex] at h
        by_cases hlb : metric ∈ lb_stats
        · rw [if_pos hlb] at h
          obtain ⟨m, d0, v, hm, hv⟩ := ih triples h t ht
          exact ⟨m, d0, v, List.mem_cons_of_mem _ hm, hv⟩
        · rw [if_neg hlb] at h
          cases d with
          | none =>
            obtain ⟨m, d0, v, hm, hv⟩ := ih triples h t ht
            exact ⟨m, d0, v, List.mem_cons_of_mem _ hm, hv⟩
          | some recs =>
            cases recs with
            | nil => exact Except.noConfusion h
            | cons r rs =>
              cases hrec : v4_get_entity_stats_map pfx entity tl with
              | error e =>
                rw [hrec] at h
                exact Except.noConfusion h
              | ok triples0 =>
                rw [hrec] at h
                have h2 : Except.ok (ε := String)
                    (mkTriple (mkKey pfx metric) entity
                      (if pfx = "nutanix_networking_vpc_ns_stats_" then r.raw
                        else r.value) :: triples0) = Except.ok triples := h
                cases h2
                rcases List.mem_cons.mp ht with rfl | hmem
                · exact ⟨metric, some (r :: rs),
                    (if pfx = "nutanix_networking_vpc_ns_stats_" then r.raw else r.value),
                    List.mem_cons_self _ _, rfl⟩
                · obtain ⟨m, d0, v, hm, hv⟩ := ih triples0 hrec t hmem
                  exact ⟨m, d0, v, List.mem_cons_of_mem _ hm, hv⟩

/-! ## C5: per-field behaviour of the mapping-shaped stat sampler -/

/-- C5 (amended). For a mapping-shaped payload in which no
non-excluded, non-load-balancer field carries an empty record list, the
sampler returns exactly one triple per remaining field with a non-None
value — the triple's value taken from the field's first record — and
no triple and no error for fields that are excluded, load-balancer
composites, or None-valued. -/
theorem c5_stat_field_emission (pfx entity : String)
    (payload : List (String × Option (List StatRecord)))
    (hne : ∀ f ∈ payload, f.1 ∉ exclude_list → f.1 ∉ lb_stats → f.2 ≠ some []) :
    v4_get_entity_stats_map pfx entity payload =
      .ok (payload.filterMap (emit_one pfx entity)) := by
  induction payload with
  | nil => rfl
  | cons hd tl ih =>
    obtain ⟨metric, d⟩ := hd
    have hih := ih (fun f hf => hne f (List.mem_cons_of_mem _ hf))
    by_cases hex : metric ∈ exclude_list
    · have he : emit_one pfx entity (metric, d) = none := by simp [emit_one, hex]
      simp only [v4_get_entity_stats_map]
      rw [if_pos hex, hih, List.filterMap_cons_none he]
    · by_cases hlb : metric ∈ lb_stats
      · have he : emit_one pfx entity (metric, d) = none := by simp [emit_one, hlb]
        simp only [v4_get_entity_stats_map]
        rw [if_neg hex, if_pos hlb, hih, List.filterMap_cons_none he]
      · cases d with
        | none =>
          have he : emit_one pfx entity (metric, none) = none := by
            simp [emit_one, hex, hlb]
          simp only [v4_get_entity_stats_map]
          rw [if_neg hex, if_neg hlb]
          exact hih.trans (congrArg Except.ok (List.filterMap_cons_none he).symm)
        | some recs =>
          cases recs with
          | nil => exact absurd rfl (hne (metric, some []) (List.mem_cons_self _ _) hex hlb)
          | cons r rs =>
            have he : emit_one pfx entity (metric, some (r :: rs)) =
                some (mkTriple (mkKey pfx metric) entity
                  (if pfx = "nutanix_networking_vpc_ns_stats_" then r.raw
                    else r.value)) := by
              simp [emit_one, hex, hlb]
            simp only [v4_get_entity_stats_map]
            rw [if_neg hex, if_neg hlb, hih]
            exact (congrArg Except.ok (List.filterMap_cons_some he)).symm

/-- C5 counterexample to the claim as stated: a field that is neither
excluded, nor a load-balancer composite, nor None-valued, but whose
record list is empty, makes `metric_data[0]` raise IndexError instead
of emitting a triple. -/
theorem c5_counterexample_empty_records :
    v4_get_entity_stats_map "nutanix_clustermgmt_cluster_stats_" "cluster01"
        [("controller_num_iops", some [])] =
      .error "IndexError: list index out of range" ∧
    "controller_num_iops" ∉ exclude_list ∧
    "controller_num_iops" ∉ lb_stats ∧
    some ([] : List StatRecord) ≠ none := by
  exact ⟨rfl, by decide, by decide, by decide⟩

/-- Witness for C5 (amended): only the real stat emits a triple, its
value taken from the first record. -/
theorem c5_stat_field_emission_witness :
    v4_get_entity_stats_map "nutanix_clustermgmt_cluster_stats_" "cluster01"
        c5_example_payload =
      .ok (c5_example_payload.filterMap
        (emit_one "nutanix_clustermgmt_cluster_stats_" "cluster01")) ∧
    c5_example_payload.filterMap
        (emit_one "nutanix_clustermgmt_cluster_stats_" "cluster01") =
      ["nutanix_clustermgmt_cluster_stats_controller_num_iops:cluster01:123"] := by
  exact ⟨c5_stat_field_emission _ _ _ (by decide), by decide⟩

/-! ## C6: per-cluster powered-on VM aggregation -/

/-- C6. Every fetched non-PRISM_CENTRAL cluster gets exactly its own
powered-on VM count (VMs whose cluster reference equals its `ext_id`
and whose `power_state` is ON) published under its name, every
published count comes from such a cluster (so no count is published
for a cluster id appearing only in VM records), and the spec's example
evaluates to `[("C1", 1)]`. -/
theorem c6_vm_on_aggregation (cluster_list : List ClusterEntity)
    (vms_list : List VmEntity) :
    (∀ c ∈ cluster_list, c.cluster_function.contains "PRISM_CENTRAL" = false →
      (c.name,
        ((vms_list.filter (fun vm => vm.cluster_ext_id == c.ext_id)).filter
          (fun vm => vm.power_state == "ON")).length) ∈
        published_vm_on_counts cluster_list vms_list) ∧
    (∀ p ∈ published_vm_on_counts cluster_list vms_list, ∃ c, c ∈ cluster_list ∧
      c.cluster_function.contains "PRISM_CENTRAL" = false ∧ p.1 = c.name ∧
      p.2 = ((vms_list.filter (fun vm => vm.cluster_ext_id == c.ext_id)).filter
        (fun vm => vm.power_state == "ON")).length) ∧
    published_vm_on_counts [⟨"1", "C1", []⟩]
      [⟨"1", "ON"⟩, ⟨"1", "OFF"⟩, ⟨"2", "ON"⟩] = [("C1", 1)] := by
  refine ⟨?_, ?_, by decide⟩
  · intro c hc hpc
    exact List.mem_map.mpr ⟨c, List.mem_filter.mpr ⟨hc, by simpa using hpc⟩, rfl⟩
  · intro p hp
    obtain ⟨c, hcf, rfl⟩ := List.mem_map.mp hp
    obtain ⟨hc, hb⟩ := List.mem_filter.mp hcf
    exact ⟨c, hc, by simpa using hb, rfl, rfl⟩

/-! ## C8: storage container label composition -/

/-- C8 is a code bug: the publish loop looks the parent cluster up by
container NAME, taking the first match (line 817), so every triple
whose entity decodes to `default` — including those of the `clusterB`
container — is labelled `clusterA_default`; the label required by the
claim and the spec for the second container, `clusterB_default`, is
never produced, and the two same-named containers collapse onto one
label instead of receiving distinct ones. -/
theorem c8_storage_container_label_bug :
    storage_container_label c8_example_details "default" = some "clusterA_default" ∧
    sanitize ("clusterB" ++ "_" ++ "default") = "clusterB_default" ∧
    storage_container_label c8_example_details "default" ≠ some "clusterB_default" := by
  exact ⟨by decide, by decide, by decide⟩

/-! ## C7: the metric catalog and the keys written at publish time -/

/-- The characters of a sanitized string. -/
lemma sanitize_data (s : String) : (sanitize s).data = s.data.map sanitizeChar := rfl

/-- Folding the class snake-case name into the registration key. -/
lemma clustermgmt_key_eq (clsSnake pfx s : String)
    (hp : "nutanix_clustermgmt_" ++ clsSnake ++ "_" = pfx) :
    clustermgmt_stat_key clsSnake s = sanitize (pfx ++ s) := by
  rw [clustermgmt_stat_key, ← hp]

/-- No cluster-stats key ever equals the host-stats key of the C7
counterexample: the two sanitized key families differ inside their
fixed literal portions. -/
lemma cluster_pfx_never_hostkey (s : String) :
    sanitize ("nutanix_clustermgmt_cluster_stats_" ++ s) ≠
      "nutanix_clustermgmt_host_stats_cpu_usage_ppm" := by
  intro h
  have hd := congrArg String.data h
  rw [sanitize_data, String.data_append] at hd
  have h34 := congrArg (List.take 34) hd
  rw [← List.map_take, List.take_append_eq_append_take] at h34
  have hz : 34 - ("nutanix_clustermgmt_cluster_stats_" : String).data.length = 0 := by
    decide
  rw [hz, List.take_zero, List.append_nil] at h34
  exact absurd h34 (by decide)

/-- Membership in the registered catalog: cluster stats keys, whenever
`cluster_metrics` is enabled. -/
lemma mem_registered_cluster (flags : MetricFlags)
    (hostF clusterF scF diskF : List String) (hc : flags.cluster_metrics = true)
    (s : String) (hs : s ∈ clusterF) :
    sanitize ("nutanix_clustermgmt_cluster_stats_" ++ s) ∈
      registered_clustermgmt_stat_keys flags hostF clusterF scF diskF := by
  rw [← clustermgmt_key_eq "cluster_stats" "nutanix_clustermgmt_cluster_stats_" s
    (by decide)]
  rw [registered_clustermgmt_stat_keys, if_pos hc]
  exact List.mem_append_left _ (List.mem_append_left _
    (List.mem_append_right _ (List.mem_map.mpr ⟨s, hs, rfl⟩)))

/-- Membership in the registered catalog: host stats keys, whenever
`cluster_metrics` is enabled. -/
lemma mem_registered_host (flags : MetricFlags)
    (hostF clusterF scF diskF : List String) (hc : flags.cluster_metrics = true)
    (s : String) (hs : s ∈ hostF) :
    sanitize ("nutanix_clustermgmt_host_stats_" ++ s) ∈
      registered_clustermgmt_stat_keys flags hostF clusterF scF diskF := by
  rw [← clustermgmt_key_eq "host_stats" "nutanix_clustermgmt_host_stats_" s
    (by decide)]
  rw [registered_clustermgmt_stat_keys, if_pos hc]
  exact List.mem_append_left _ (List.mem_append_left _
    (List.mem_append_left _ (List.mem_map.mpr ⟨s, hs, rfl⟩)))

/-- Membership in the registered catalog: storage container stats keys,
whenever `cluster_metrics` and `storage_containers_metrics` are
enabled. -/
lemma mem_registered_sc (flags : MetricFlags)
    (hostF clusterF scF diskF : List String) (hc : flags.cluster_metrics = true)
    (hsc : flags.storage_containers_metrics = true)
    (s : String) (hs : s ∈ scF) :
    sanitize ("nutanix_clustermgmt_storage_container_stats_" ++ s) ∈
      registered_clustermgmt_stat_keys flags hostF clusterF scF diskF := by
  rw [← clustermgmt_key_eq "storage_container_stats"
    "nutanix_clustermgmt_storage_container_stats_" s (by decide)]
  rw [registered_clustermgmt_stat_keys, if_pos hc]
  exact List.mem_append_left _ (List.mem_append_right _
    (by rw [if_pos hsc]; exact List.mem_map.mpr ⟨s, hs, rfl⟩))

/-- Membership in the registered catalog: disk stats keys, whenever
`cluster_metrics` and `disks_metrics` are enabled. -/
lemma mem_registered_disk (flags : MetricFlags)
    (hostF clusterF scF diskF : List String) (hc : flags.cluster_metrics = true)
    (hd : flags.disks_metrics = true)
    (s : String) (hs : s ∈ diskF) :
    sanitize ("nutanix_clustermgmt_disk_stats_" ++ s) ∈
      registered_clustermgmt_stat_keys flags hostF clusterF scF diskF := by
  rw [← clustermgmt_key_eq "disk_stats" "nutanix_clustermgmt_disk_stats_" s
    (by decide)]
  rw [registered_clustermgmt_stat_keys, if_pos hc]
  exact List.mem_append_right _ (by rw [if_pos hd]; exact List.mem_map.mpr ⟨s, hs, rfl⟩)

/-- C7 (amended).  The claimed equality of the registered and the
ever-written key sets fails in both directions over the flag
combinations it quantified (see the counterexample: registered host
gauges are never written when `hosts_metrics` is off, and written host
keys are never registered when `cluster_metrics` is off — the latter a
KeyError at the `self.__dict__[key]` lookup of line 727).  What does
hold is containment conditioned on registration being enabled: with
`cluster_metrics` enabled (so the clustermgmt registration region of
lines 163-189 ran) and every stat field a poll cycle publishes for a
clustermgmt entity kind drawn from that kind's registered SDK
stats-class catalog, every metric key written at publish time was
registered at startup. -/
theorem c7_metric_catalog_containment (flags : MetricFlags)
    (hostF clusterF scF diskF ce he se de : List String)
    (hc : flags.cluster_metrics = true)
    (h1 : ∀ s ∈ ce, s ∈ clusterF) (h2 : ∀ s ∈ he, s ∈ hostF)
    (h3 : ∀ s ∈ se, s ∈ scF) (h4 : ∀ s ∈ de, s ∈ diskF) :
    ∀ k ∈ written_clustermgmt_stat_keys flags ce he se de,
      k ∈ registered_clustermgmt_stat_keys flags hostF clusterF scF diskF := by
  intro k hk
  rw [written_clustermgmt_stat_keys] at hk
  rcases List.mem_append.mp hk with hk3 | h0
  · rcases List.mem_append.mp hk3 with hk2 | h0
    · rcases List.mem_append.mp hk2 with h0 | h0
      · rw [if_pos hc] at h0
        obtain ⟨s, hs, rfl⟩ := List.mem_map.mp h0
        exact mem_registered_cluster flags hostF clusterF scF diskF hc s (h1 s hs)
      · cases hb : flags.hosts_metrics with
        | false =>
          rw [if_neg (by simp [hb])] at h0
          exact absurd h0 (List.not_mem_nil k)
        | true =>
          rw [if_pos hb] at h0
          obtain ⟨s, hs, rfl⟩ := List.mem_map.mp h0
          exact mem_registered_host flags hostF clusterF scF diskF hc s (h2 s hs)
    · cases hb : flags.storage_containers_metrics with
      | false =>
        rw [if_neg (by simp [hb])] at h0
        exact absurd h0 (List.not_mem_nil k)
      | true =>
        rw [if_pos hb] at h0
        obtain ⟨s, hs, rfl⟩ := List.mem_map.mp h0
        exact mem_registered_sc flags hostF clusterF scF diskF hc hb s (h3 s hs)
  · cases hb : flags.disks_metrics with
    | false =>
      rw [if_neg (by simp [hb])] at h0
      exact absurd h0 (List.not_mem_nil k)
    | true =>
      rw [if_pos hb] at h0
      obtain ⟨s, hs, rfl⟩ := List.mem_map.mp h0
      exact mem_registered_disk flags hostF clusterF scF diskF hc hb s (h4 s hs)

/-- C7 counterexample to the claim as stated, in both directions.
First: with `cluster_metrics` enabled and `hosts_metrics` disabled, the
host-stats gauge key is registered at startup (HostStats is always
introspected under `cluster_metrics`, line 166) but no poll cycle —
whatever stats any payload ever emits — writes it.  Second: with
`hosts_metrics` enabled and `cluster_metrics` disabled, a poll cycle
writes (looks up via `self.__dict__[key]`, line 727) the host-stats
key although registration — which happens only under
`cluster_metrics` — registered no clustermgmt key at all, whatever the
SDK catalogs hold.  So neither inclusion between the registered set
and the ever-written set holds over all flag combinations. -/
theorem c7_counterexample_registered_unwritten :
    ("nutanix_clustermgmt_host_stats_cpu_usage_ppm" ∈
      registered_clustermgmt_stat_keys ⟨true, false, false, false⟩
        ["cpu_usage_ppm"] ["cpu_usage_ppm"] [] [] ∧
    ∀ ce he se de : List String,
      "nutanix_clustermgmt_host_stats_cpu_usage_ppm" ∉
        written_clustermgmt_stat_keys ⟨true, false, false, false⟩ ce he se de) ∧
    ("nutanix_clustermgmt_host_stats_cpu_usage_ppm" ∈
      written_clustermgmt_stat_keys ⟨false, true, false, false⟩
        [] ["cpu_usage_ppm"] [] [] ∧
    ∀ hostF clusterF scF diskF : List String,
      registered_clustermgmt_stat_keys ⟨false, true, false, false⟩
        hostF clusterF scF diskF = []) := by
  refine ⟨⟨by decide, ?_⟩, by decide, fun _ _ _ _ => rfl⟩
  intro ce he se de hmem
  have hadj : written_clustermgmt_stat_keys ⟨true, false, false, false⟩ ce he se de =
      ce.map (fun s => sanitize ("nutanix_clustermgmt_cluster_stats_" ++ s)) := by
    simp [written_clustermgmt_stat_keys]
  rw [hadj] at hmem
  obtain ⟨s, hs, heq⟩ := List.mem_map.mp hmem
  exact cluster_pfx_never_hostkey s heq

/-- Witness for C7 (amended) at a concrete flag set and catalog: the
written cluster-stats key for the emitted field `b.c` is among the
registered keys. -/
theorem c7_metric_catalog_containment_witness :
    "nutanix_clustermgmt_cluster_stats_b_c" ∈
      registered_clustermgmt_stat_keys ⟨true, true, false, false⟩
        ["a"] ["b.c"] [] [] := by
  have h := c7_metric_catalog_containment ⟨true, true, false, false⟩
    ["a"] ["b.c"] [] [] ["b.c"] ["a"] [] [] rfl
    (by decide) (by decide) (by decide) (by decide)
  exact h "nutanix_clustermgmt_cluster_stats_b_c" (by decide)

/-! ## C10: the string-encoded triple round-trip -/

/-- A split never yields the empty list of parts. -/
lemma splitOnColon_ne_nil : ∀ l : List Char, splitOnColon l ≠ [] := by
  intro l
  induction l with
  | nil => simp [splitOnColon]
  | cons c rest ih =>
    cases h : splitOnColon rest with
    | nil => exact absurd h ih
    | cons p ps =>
      by_cases hc : c = ':' <;> simp [splitOnColon, h, hc]

/-- The number of parts is one more than the number of colons. -/
lemma length_splitOnColon : ∀ l : List Char,
    (splitOnColon l).length = l.count ':' + 1 := by
  intro l
  induction l with
  | nil => simp [splitOnColon]
  | cons c rest ih =>
    cases h : splitOnColon rest with
    | nil => exact absurd h (splitOnColon_ne_nil rest)
    | cons p ps =>
      have ihr := ih
      rw [h] at ihr
      simp only [List.length_cons] at ihr
      by_cases hc : c = ':' <;>
        simp [splitOnColon, h, hc, List.count_cons] <;> omega

/-- Splitting a colon-free part off the front. -/
lemma splitOnColon_append (a b : List Char) (ha : ':' ∉ a) :
    splitOnColon (a ++ ':' :: b) = a :: splitOnColon b := by
  induction a with
  | nil =>
    cases h : splitOnColon b with
    | nil => exact absurd h (splitOnColon_ne_nil b)
    | cons p ps => simp [splitOnColon, h]
  | cons c a ih =>
    have hc : c ≠ ':' := fun hcc => ha (hcc ▸ List.mem_cons_self c a)
    have ha2 : ':' ∉ a := fun hmem => ha (List.mem_cons_of_mem c hmem)
    have hmain : splitOnColon ((c :: a) ++ ':' :: b) =
        match splitOnColon (a ++ ':' :: b) with
        | [] => [[]]
        | part :: parts =>
          if c = ':' then [] :: part :: parts else (c :: part) :: parts := rfl
    rw [hmain, ih ha2]
    simp [hc]

/-- A colon-free string splits into itself alone. -/
lemma splitOnColon_of_not_mem : ∀ v : List Char, ':' ∉ v → splitOnColon v = [v] := by
  intro v
  induction v with
  | nil => intro _; rfl
  | cons c rest ih =>
    intro hv
    have hc : c ≠ ':' := fun hcc => hv (hcc ▸ List.mem_cons_self c rest)
    have hrest := ih (fun hmem => hv (List.mem_cons_of_mem c hmem))
    simp [splitOnColon, hrest, hc]

/-- A split with other than three parts makes the three-way unpacking
raise ValueError. -/
lemma decode_eq_error (s : List Char) (h : (splitOnColon s).length ≠ 3) :
    decode_triple s = .error "ValueError: unpack" := by
  unfold decode_triple
  rcases hs : splitOnColon s with _ | ⟨a, _ | ⟨b, _ | ⟨c, _ | ⟨d, t⟩⟩⟩⟩ <;>
    first
      | rfl
      | (exact absurd (by rw [hs]; rfl) h)

/-- C10 (amended). The publishing step recovers the original
`(key, entity, value)` from the encoded `"{key}:{entity}:{value}"`
exactly when none of the three parts — the key included — contains a
colon; whenever the entity name contains a colon the unpacking raises
ValueError instead of publishing; and the string-level encoder
`mkTriple` used by the sampler is character-wise exactly this
encoding. -/
theorem c10_triple_encoding (key entity value : List Char) :
    (decode_triple (encode_triple key entity value) = .ok (key, entity, value) ↔
      (':' ∉ key ∧ ':' ∉ entity ∧ ':' ∉ value)) ∧
    (':' ∈ entity →
      decode_triple (encode_triple key entity value) =
        .error "ValueError: unpack") ∧
    (∀ k e v : String, (mkTriple k e v).data = encode_triple k.data e.data v.data) := by
  have hcount : (encode_triple key entity value).count ':' =
      key.count ':' + entity.count ':' + value.count ':' + 2 := by
    simp [encode_triple, List.count_append, List.count_cons]
    omega
  have herr : ':' ∈ key ∨ ':' ∈ entity ∨ ':' ∈ value →
      decode_triple (encode_triple key entity value) =
        .error "ValueError: unpack" := by
    intro hmem
    refine decode_eq_error _ ?_
    rw [length_splitOnColon, hcount]
    have : 0 < key.count ':' ∨ 0 < entity.count ':' ∨ 0 < value.count ':' := by
      rcases hmem with h | h | h
      · exact Or.inl (List.count_pos_iff.mpr h)
      · exact Or.inr (Or.inl (List.count_pos_iff.mpr h))
      · exact Or.inr (Or.inr (List.count_pos_iff.mpr h))
    omega
  refine ⟨⟨?_, ?_⟩, fun he => herr (Or.inr (Or.inl he)), ?_⟩
  · intro hok
    by_contra hnot
    have hmem : ':' ∈ key ∨ ':' ∈ entity ∨ ':' ∈ value := by tauto
    rw [herr hmem] at hok
    exact Except.noConfusion hok
  · rintro ⟨hk, he, hv⟩
    have hsplit : splitOnColon (encode_triple key entity value) =
        [key, entity, value] := by
      rw [encode_triple, List.append_assoc, List.cons_append,
        splitOnColon_append _ _ hk, splitOnColon_append _ _ he,
        splitOnColon_of_not_mem _ hv]
    rw [decode_triple, hsplit]
  · intro k e v
    simp [mkTriple, encode_triple, String.data_append]

/-- C10 counterexample to the claim as stated: with a colon-free entity
name and value but a key containing a colon, the claim's biconditional
says the decode recovers the original, yet the unpacking raises. -/
theorem c10_counterexample_key_colon :
    ':' ∉ "vm1".data ∧ ':' ∉ "42".data ∧
    decode_triple (encode_triple "bad:key".data "vm1".data "42".data) =
      .error "ValueError: unpack" := by
  refine ⟨by decide, by decide, ?_⟩
  rfl

/-! ## C2: retry bound -/

/-- C2. With `api_requests_retries = 3` and every attempt failing with a
timeout or connection-establishment error, `process_request` makes
exactly 3 attempts with a sleep between consecutive attempts (2 sleeps)
and then raises an error carrying the URL and the underlying cause; and
a first attempt that fails with anything other than a connection error
or timeout is never retried. -/
theorem c2_retry_bound (attempt : Nat → Attempt) (url : String)
    (h : ∀ i, (attempt i).transient = true) :
    ((process_request attempt url 3).attempts = 3 ∧
     (process_request attempt url 3).sleeps = 2 ∧
     ∃ parts, (process_request attempt url 3).result = .raised parts ∧
       url ∈ parts ∧ (attempt 2).causeStr ∈ parts) ∧
    (∀ a u r, 0 < r → (a 0).transient = false →
      (process_request a u r).attempts = 1) := by
  constructor
  · rcases transient_shape _ (h 0) with ⟨en0, es0, he0⟩ | ⟨en0, es0, he0⟩ <;>
    rcases transient_shape _ (h 1) with ⟨en1, es1, he1⟩ | ⟨en1, es1, he1⟩ <;>
    rcases transient_shape _ (h 2) with ⟨en2, es2, he2⟩ | ⟨en2, es2, he2⟩ <;>
      simp [process_request, process_request_go, he0, he1, he2, Attempt.causeStr]
  · intro a u r hr hval
    exact (process_request_attempts_one a u r hr hval).1

/-- Witness for C2 at a concrete always-timing-out attempt sequence. -/
theorem c2_retry_bound_witness :
    (process_request c2_example_attempt "https://prism:9440/api/nutanix" 3).attempts = 3 ∧
    (process_request c2_example_attempt "https://prism:9440/api/nutanix" 3).sleeps = 2 := by
  have h := c2_retry_bound c2_example_attempt "https://prism:9440/api/nutanix"
    (fun _ => rfl)
  exact ⟨h.1.1, h.1.2.1⟩

/-! ## C3: fatal short-circuit on a non-success response -/

/-- C3 (amended). A response with a non-success status is never
retried whatever the retry budget: `process_request` raises after that
single attempt with no sleep, and the raised message carries the URL,
the status code and the reason; the response body is additionally
carried for status 500 (and for statuses outside 400-599), but not for
401 or the remaining statuses, whose raise goes through
`response.raise_for_status()`. -/
theorem c3_fatal_short_circuit (attempt : Nat → Attempt) (url reason text : String)
    (s r : Nat) (ha : attempt 0 = .resp s reason text) (hs : 400 ≤ s) (hr : 0 < r) :
    (process_request attempt url r).attempts = 1 ∧
    (process_request attempt url r).sleeps = 0 ∧
    ∃ parts, (process_request attempt url r).result = .raised parts ∧
      url ∈ parts ∧ toString s ∈ parts ∧ reason ∈ parts ∧
      (s = 500 → text ∈ parts) := by
  obtain ⟨k, rfl⟩ : ∃ k, r = k + 1 := ⟨r - 1, by omega⟩
  have hgo : process_request attempt url (k + 1) =
      ⟨classify_response url s reason text, 1, 0⟩ := by
    simp [process_request, process_request_go, ha]
  rw [hgo]
  refine ⟨rfl, rfl, ?_⟩
  have hro : responseOk s = false := by
    simp only [responseOk, decide_eq_false_iff_not]
    omega
  by_cases h401 : s = 401
  · exact ⟨[url, toString s, reason],
      by rw [h401]; simp [classify_response, responseOk], by simp, by simp, by simp,
      fun h5 => absurd (h401 ▸ h5) (by decide)⟩
  · by_cases h500 : s = 500
    · exact ⟨[url, toString s, reason, text],
        by rw [h500]; simp [classify_response, responseOk], by simp, by simp, by simp,
        fun _ => by simp⟩
    · by_cases hcl : s < 500
      · exact ⟨[toString s, "Client Error:", reason, "for url:", url],
          by simp [classify_response, hro, h401, h500, hcl], by simp, by simp,
          by simp, fun h5 => absurd h5 h500⟩
      · by_cases hsv : s < 600
        · exact ⟨[toString s, "Server Error:", reason, "for url:", url],
            by simp [classify_response, hro, h401, h500, hcl, hsv], by simp,
            by simp, by simp, fun h5 => absurd h5 h500⟩
        · exact ⟨[url, toString s, reason, text],
            by simp [classify_response, hro, h401, h500, hcl, hsv], by simp,
            by simp, by simp, fun _ => by simp⟩

/-- C3 counterexample to the claim as stated: a 401 response with a
non-empty body raises immediately, but the raised message
`f"{url} {status_code} {reason}"` (line 2376) does not carry the body. -/
theorem c3_counterexample_401_body :
    process_request (fun _ => Attempt.resp 401 "Unauthorized" "BODY-DETAILS")
        "https://prism:9440/api" 5 =
      ⟨.raised ["https://prism:9440/api", "401", "Unauthorized"], 1, 0⟩ ∧
    "BODY-DETAILS" ∉ (["https://prism:9440/api", "401", "Unauthorized"] : List String) := by
  exact ⟨by decide, by decide⟩

/-- Witness for C3 (amended) at a concrete 404 response. -/
theorem c3_fatal_short_circuit_witness :
    (process_request c3_example_attempt "https://prism:9440/api" 5).attempts = 1 ∧
    (process_request c3_example_attempt "https://prism:9440/api" 5).sleeps = 0 ∧
    ∃ parts,
      (process_request c3_example_attempt "https://prism:9440/api" 5).result =
        .raised parts ∧
      "https://prism:9440/api" ∈ parts ∧ toString 404 ∈ parts ∧
      "NOT FOUND" ∈ parts ∧ (404 = 500 → "no such route" ∈ parts) :=
  c3_fatal_short_circuit c3_example_attempt "https://prism:9440/api" "NOT FOUND"
    "no such route" 404 5 rfl (by omega) (by omega)

end NutanixExporter
